import Mathlib

/-!
Verification of the multi-tenant backend core: tenant resolution,
schema-model cache, and the layered authorization pipeline.

The definitions below are shallow embeddings of the JavaScript sources:
- middlewares/rbacMiddleware.js   (role hierarchy, ownership policy)
- middlewares/jwtMiddleware.js    (token authentication, tenant-claim guard)
- middlewares/tenantMiddleware.js (tenant resolution pipeline)
- services/TenantCacheService.js  (schema-model cache)
- services/TenantService.js       (tenant creation saga, deletion)
- services/AuthService.js         (token extraction helper)

External effects (JWT signature verification, Sequelize model construction,
the storage liveness probe) are passed in as explicit oracle values, so each
embedded function is a pure, executable Lean function.
-/

namespace Backend

/-! ### JavaScript value helpers (truthiness, parseInt) -/

/-- JS truthiness of an optional string: `undefined` and the empty string are falsy. -/
def strTruthy : Option String → Bool
  | none => false
  | some s => s ≠ ""

/-- JS truthiness of an optional number: `undefined`, `NaN` (modelled as `none`) and `0` are falsy. -/
def intTruthy : Option Int → Bool
  | none => false
  | some n => n ≠ 0

/-- Longest prefix of decimal digits. -/
def digitsPrefix (cs : List Char) : List Char :=
  cs.takeWhile Char.isDigit

/-- Numeric value of a list of decimal digits. -/
def digitsVal (cs : List Char) : Nat :=
  cs.foldl (fun a c => 10 * a + (c.toNat - 48)) 0

/-- JS `parseInt(s)` in base 10: skip leading whitespace, optional sign, then the
longest digit prefix; `none` models `NaN` (no digits found). -/
def parseIntJS (s : String) : Option Int :=
  let cs := s.data.dropWhile (fun c => c == ' ' || c == '\t' || c == '\n' || c == '\r')
  match cs with
  | '-' :: rest =>
    let ds := digitsPrefix rest
    if ds.isEmpty then none else some (-(digitsVal ds : Int))
  | '+' :: rest =>
    let ds := digitsPrefix rest
    if ds.isEmpty then none else some ((digitsVal ds : Int))
  | _ =>
    let ds := digitsPrefix cs
    if ds.isEmpty then none else some ((digitsVal ds : Int))

/-- JS `String.prototype.includes`: substring containment test. -/
def containsSubstr (s pat : String) : Bool :=
  (List.range (s.data.length + 1)).any (fun i => ((s.data.drop i).take pat.data.length) == pat.data)

/-- Lowercase an ASCII letter (`String.prototype.toLowerCase`, restricted to
the ASCII range, which is all the later sanitization can keep). -/
def toLowerChar (c : Char) : Char :=
  if 'A' ≤ c && c ≤ 'Z' then Char.ofNat (c.toNat + 32) else c

/-- JS `String.prototype.trim`: strip whitespace from both ends. -/
def jsTrim (s : String) : String :=
  String.mk (((s.data.dropWhile Char.isWhitespace).reverse.dropWhile Char.isWhitespace).reverse)

/-! ### AuthorizationEngine — middlewares/rbacMiddleware.js -/

/-- `ROLE_HIERARCHY` object: the finite map from role strings to levels. -/
def ROLE_HIERARCHY (role : String) : Option Nat :=
  if role = "user" then some 1
  else if role = "manager" then some 2
  else if role = "admin" then some 3
  else none

/-- `ROLE_HIERARCHY[role] || 0`: a role outside the map defaults to level 0. -/
def roleLevel (role : String) : Nat :=
  (ROLE_HIERARCHY role).getD 0

/-- `hasPermission(userRole, requiredRole)` from rbacMiddleware.js. -/
def hasPermission (userRole requiredRole : String) : Bool :=
  roleLevel userRole ≥ roleLevel requiredRole

/-- The authenticated actor as seen by the RBAC middleware (`req.user`). -/
structure RbacUser where
  userId : Int
  role : String
deriving DecidableEq

/-- Outcome of an RBAC middleware: either `next()` is called (access granted)
or a response with an HTTP status and a machine-readable code is sent. -/
inductive RbacResult
  | next
  | reject (status : Nat) (code : String)
deriving DecidableEq

/-- `requireMinimumRole(minimumRole)` applied to a request with `req.user = user`. -/
def requireMinimumRole (minimumRole : String) (user : Option RbacUser) : RbacResult :=
  match user with
  | none => .reject 401 "AUTH_REQUIRED"
  | some u =>
    if hasPermission u.role minimumRole then .next
    else .reject 403 "INSUFFICIENT_PERMISSIONS"

/-- The first truthy raw value among `req.params[ownerField]`,
`req.body[ownerField]`, `req.query[ownerField]`, mirroring the
if / else-if chain in `requireOwnershipOrRole`. -/
def ownerRaw (pv bv qv : Option String) : Option String :=
  if strTruthy pv then pv
  else if strTruthy bv then bv
  else if strTruthy qv then qv
  else none

/-- `resourceOwnerId`: `parseInt` of the first truthy location value. -/
def resolvedOwnerId (pv bv qv : Option String) : Option Int :=
  (ownerRaw pv bv qv).bind parseIntJS

/-- `requireOwnershipOrRole(minimumRole, ownerField)` applied to a request whose
`params` / `body` / `query` values at `ownerField` are `pv`, `bv`, `qv`. -/
def requireOwnershipOrRole (minimumRole : String) (user : Option RbacUser)
    (pv bv qv : Option String) : RbacResult :=
  match user with
  | none => .reject 401 "AUTH_REQUIRED"
  | some u =>
    if hasPermission u.role minimumRole then .next
    else
      let owner := resolvedOwnerId pv bv qv
      if ¬ intTruthy owner then .reject 403 "OWNERSHIP_UNKNOWN"
      else if owner = some u.userId then .next
      else .reject 403 "INSUFFICIENT_PERMISSIONS_OR_OWNERSHIP"

/-! ### TokenService and JWT middleware — services/AuthService.js, middlewares/jwtMiddleware.js -/

/-- A fixed, typed collection of per-namespace data-access handles, identified
by the model names (the keys of the object returned by `initModels`). -/
def ModelSet := List String
deriving DecidableEq

/-- The decoded JWT payload. Fields are optional because an adversarial token
may omit any of them; `none` models an absent (`undefined`) claim. -/
structure Decoded where
  userId : Option Int
  email : Option String
  role : Option String
  tenantId : Option Int
  tenantName : Option String
  iat : Nat
deriving DecidableEq

/-- The bound tenant context attached to the request (`req.tenant`). -/
structure TenantCtx where
  id : Int
  name : String
  schema : String
  models : ModelSet
  isActive : Bool
deriving DecidableEq

/-- The authenticated actor attached to the request (`req.user`) by the JWT middleware. -/
structure AuthedUser where
  userId : Int
  email : String
  role : String
  tenantId : Int
  tenantName : Option String
  tokenIssuedAt : Nat
deriving DecidableEq

/-- Outcome of the JWT middleware: a rejection response (status and code), or
`next()` with the authenticated actor attached. A business handler runs only
in the `authenticated` case. -/
inductive AuthOutcome
  | reject (status : Nat) (code : String)
  | authenticated (user : AuthedUser)
deriving DecidableEq

/-- `AuthService.extractTokenFromHeader`: supports both a `Bearer token` form
and a bare token; a missing or empty header yields `none`. -/
def extractTokenFromHeader : Option String → Option String
  | none => none
  | some h =>
    if h = "" then none
    else if h.data.take 7 = "Bearer ".data then some (String.mk (h.data.drop 7))
    else some h

/-- Error classification in the JWT middleware catch block: it inspects the
message thrown by `AuthService.verifyToken`. -/
def classifyTokenError (msg : String) : Nat × String :=
  if containsSubstr msg "expired" then (401, "TOKEN_EXPIRED")
  else if containsSubstr msg "not active" then (403, "TOKEN_NOT_ACTIVE")
  else (401, "TOKEN_INVALID")

/-- Attach the decoded claims to the request as `req.user` (fields were already
checked truthy by the payload validation, so the defaults never fire). -/
def attachUser (d : Decoded) : AuthOutcome :=
  .authenticated
    { userId := d.userId.getD 0
      email := d.email.getD ""
      role := d.role.getD ""
      tenantId := d.tenantId.getD 0
      tenantName := d.tenantName
      tokenIssuedAt := d.iat }

/-- middlewares/jwtMiddleware.js. `verify` is the outcome of
`AuthService.verifyToken` (signature, expiry and not-before checks), passed in
as an oracle: `Except.error msg` models a thrown verification error with that
message, `Except.ok d` a successfully decoded payload. -/
def jwtMiddleware (tenant : Option TenantCtx) (authHeader : Option String)
    (verify : String → Except String Decoded) : AuthOutcome :=
  match extractTokenFromHeader authHeader with
  | none => .reject 401 "TOKEN_MISSING"
  | some token =>
    match verify token with
    | .error msg =>
      let sc := classifyTokenError msg
      .reject sc.1 sc.2
    | .ok d =>
      if !(intTruthy d.userId && strTruthy d.email && strTruthy d.role && intTruthy d.tenantId) then
        .reject 401 "TOKEN_INVALID_PAYLOAD"
      else
        match tenant with
        | some t =>
          if d.tenantId ≠ some t.id then .reject 403 "TOKEN_TENANT_MISMATCH"
          else attachUser d
        | none => attachUser d

/-! ### SchemaModelCache — services/TenantCacheService.js -/

/-- A cache entry: the value stored in `this.tenantModels` for one schema key. -/
structure CacheEntry where
  models : ModelSet
  tenantId : Option Int
  schema : String
  loadedAt : Nat
deriving DecidableEq

/-- The mutable state of the `TenantCacheService` singleton: the `tenantModels`
map and the parallel `loadedAt` map, keyed by schema name. -/
structure CacheState where
  tenantModels : List (String × CacheEntry)
  loadedAtMap : List (String × Nat)
deriving DecidableEq

/-- The empty cache (the constructor). -/
def CacheState.empty : CacheState :=
  { tenantModels := [], loadedAtMap := [] }

/-- `this.tenantModels.get(schema)` (also `getCacheEntry`). -/
def getCacheEntry (c : CacheState) (schema : String) : Option CacheEntry :=
  (c.tenantModels.find? (fun p => p.1 == schema)).map Prod.snd

/-- `hasModels(schema)`: `this.tenantModels.has(schema)`. -/
def hasModels (c : CacheState) (schema : String) : Bool :=
  c.tenantModels.any (fun p => p.1 == schema)

/-- `getModels(sequelize, schema, tenantId)`. The construction performed by
`initModels(sequelize, schema)` is passed as the oracle `init` (`Except.error`
models a construction that throws); `now` models `new Date()`. Returns the
result (`Except.error` models a rethrown error) with the updated cache state. -/
def getModels (c : CacheState) (schema : String) (tenantId : Option Int)
    (init : Except String ModelSet) (now : Nat) : Except String ModelSet × CacheState :=
  match getCacheEntry c schema with
  | some e => (.ok e.models, c)
  | none =>
    match init with
    | .error msg => (.error msg, c)
    | .ok models =>
      if models.isEmpty then
        (.error ("No models found for schema: " ++ schema), c)
      else
        let e : CacheEntry := { models := models, tenantId := tenantId, schema := schema, loadedAt := now }
        (.ok models,
          { tenantModels := c.tenantModels ++ [(schema, e)]
            loadedAtMap := c.loadedAtMap ++ [(schema, now)] })

/-- `clearSchema(schema)`: removes an entry if present, returns whether removal occurred. -/
def clearSchema (c : CacheState) (schema : String) : Bool × CacheState :=
  if hasModels c schema then
    (true,
      { tenantModels := c.tenantModels.filter (fun p => !(p.1 == schema))
        loadedAtMap := c.loadedAtMap.filter (fun p => !(p.1 == schema)) })
  else (false, c)

/-! ### TenantRegistry — models/global/Tenant.js, services/TenantService.js -/

/-- A row of the global `tenants` table. -/
structure TenantRow where
  id : Int
  name : String
  schema : String
  contactEmail : Option String
  createdBy : Option String
  isActive : Bool
deriving DecidableEq

/-- The durable state: committed registry rows and the set of existing storage
schemas (namespaces). -/
structure DbState where
  tenants : List TenantRow
  schemas : List String
deriving DecidableEq

/-- Registry lookup by tenant name (`Tenant.findOne({ where: { name } })`);
`none` is the NotFound outcome. -/
def findByIdentifier (db : DbState) (name : String) : Option TenantRow :=
  db.tenants.find? (fun t => t.name == name)

/-- Character class of the sanitization regex `[^a-z0-9_]` (kept characters). -/
def isSchemaChar (c : Char) : Bool :=
  ('a' ≤ c && c ≤ 'z') || ('0' ≤ c && c ≤ '9') || c == '_'

/-- `name.toLowerCase().replace(/[^a-z0-9_]/g, '').trim()` from `createTenant`. -/
def deriveSchema (name : String) : String :=
  jsTrim (String.mk ((name.data.map toLowerChar).filter isSchemaChar))

/-- The PostgreSQL reserved-word set checked by `createTenant`. -/
def reservedWords : List String :=
  ["public", "information_schema", "pg_catalog", "pg_toast"]

/-- Primitive operations performed by the tenant-creation saga, recorded in
execution order: forward step operations and compensation (undo) operations. -/
inductive Op
  | insertRow
  | createSchema
  | cacheLoad
  | syncTables
  | commitTx
  | rollbackTx
  | dropSchemaOp
  | clearCacheOp
deriving DecidableEq

/-- Compensation (undo) operations of the saga. -/
def isUndoOp : Op → Bool
  | .rollbackTx => true
  | .dropSchemaOp => true
  | .clearCacheOp => true
  | _ => false

/-- Failure-injection oracle for `createTenant`: which external step throws.
`initModels` is the construction outcome used by the cache on a miss;
`dropSchemaFails` makes the compensating `dropSchema` call throw (the code
swallows that error after logging it). -/
structure CreateOracle where
  insertFails : Bool
  createSchemaFails : Bool
  initModels : Except String ModelSet
  syncFails : Bool
  dropSchemaFails : Bool

/-- Result of a `createTenant` run: the returned value or thrown error, the
resulting durable and cache states, and the operation trace. -/
structure CreateOut where
  result : Except String TenantRow
  db : DbState
  cache : CacheState
  trace : List Op

/-- The catch block of `createTenant`: transaction rollback (discarding the
uncommitted registry row), then manual schema cleanup (`dropSchema`, whose own
failure is swallowed), then unconditional cache eviction, then rethrow.
Operations are recorded in the order the code performs them; a failed
`dropSchema` records no operation. -/
def compensate (db : DbState) (cache : CacheState) (schema : String)
    (schemaCreated : Bool) (dropSchemaFails : Bool) (msg : String)
    (trace : List Op) : CreateOut :=
  let trace1 := trace ++ [Op.rollbackTx]
  let cleaned :=
    if schemaCreated then
      if dropSchemaFails then (db, trace1)
      else ({ db with schemas := db.schemas.filter (fun s => !(s == schema)) },
            trace1 ++ [Op.dropSchemaOp])
    else (db, trace1)
  let evicted := clearSchema cache schema
  { result := .error ("Tenant creation failed: " ++ msg)
    db := cleaned.1
    cache := evicted.2
    trace := cleaned.2 ++ [Op.clearCacheOp] }

/-- services/TenantService.js `createTenant(name, contactEmail, createdBy)`.
`newId` models the id the database assigns to the inserted row and `now`
models `new Date()`. The registry insert runs inside a transaction, so the row
becomes visible to `findByIdentifier` only at commit; a rollback discards it.
The insert throws on a unique-constraint violation (duplicate name or schema)
or when the oracle injects a failure. -/
def createTenant (db : DbState) (cache : CacheState) (name : String)
    (contactEmail createdBy : Option String) (newId : Int) (now : Nat)
    (o : CreateOracle) : CreateOut :=
  if name = "" then
    { result := .error "Tenant name is required and must be a string"
      db := db, cache := cache, trace := [] }
  else
    let schema := deriveSchema name
    if schema = "" then
      { result := .error "Invalid tenant name: results in empty schema name after sanitization"
        db := db, cache := cache, trace := [] }
    else if schema.length > 50 then
      { result := .error "Schema name too long (max 50 characters)"
        db := db, cache := cache, trace := [] }
    else if reservedWords.contains schema then
      { result := .error ("Schema name " ++ schema ++ " is reserved")
        db := db, cache := cache, trace := [] }
    else
      -- Step 1: insert the registry row (inside the transaction).
      if o.insertFails || db.tenants.any (fun t => t.name == name || t.schema == schema) then
        compensate db cache schema false o.dropSchemaFails "insert failed" []
      else
        let row : TenantRow :=
          { id := newId, name := name, schema := schema
            contactEmail := contactEmail, createdBy := createdBy, isActive := true }
        -- Step 2: create the storage schema (ifNotExists semantics).
        if o.createSchemaFails then
          compensate db cache schema false o.dropSchemaFails "create schema failed" [Op.insertRow]
        else
          let db1 :=
            if db.schemas.contains schema then db
            else { db with schemas := db.schemas ++ [schema] }
          -- Step 3: initialize and cache the models through the cache service.
          match getModels cache schema (some newId) o.initModels now with
          | (.error msg, cache1) =>
            compensate db1 cache1 schema true o.dropSchemaFails
              ("Model initialization failed: " ++ msg) [Op.insertRow, Op.createSchema]
          | (.ok models, cache1) =>
            if models.isEmpty then
              compensate db1 cache1 schema true o.dropSchemaFails
                "Model initialization failed: Failed to initialize tenant models"
                [Op.insertRow, Op.createSchema, Op.cacheLoad]
            else
              -- Step 4: sync the tenant-specific tables, then commit.
              if o.syncFails then
                compensate db1 cache1 schema true o.dropSchemaFails "sync failed"
                  [Op.insertRow, Op.createSchema, Op.cacheLoad]
              else
                { result := .ok row
                  db := { db1 with tenants := db1.tenants ++ [row] }
                  cache := cache1
                  trace := [Op.insertRow, Op.createSchema, Op.cacheLoad, Op.syncTables, Op.commitTx] }

/-! ### TenantResolver — middlewares/tenantMiddleware.js -/

/-- Character class of the tenant-id regex `[a-zA-Z0-9_-]`. -/
def isTenantIdChar (c : Char) : Bool :=
  ('a' ≤ c && c ≤ 'z') || ('A' ≤ c && c ≤ 'Z') || ('0' ≤ c && c ≤ '9') || c == '_' || c == '-'

/-- Outcome of the tenant middleware, one constructor per response site in the
code: the three 400 validation rejections, 404 not-found, 403 inactive, the
500 schema-error response (model load, liveness probe, or empty model set),
and the success case binding a tenant context. -/
inductive TmwOutcome
  | missingTenantId
  | invalidFormat
  | tooLong
  | notFound (name : String)
  | inactive (name : String)
  | schemaError (msg : String)
  | bound (ctx : TenantCtx)
deriving DecidableEq

/-- HTTP status sent for each outcome (`none` for the success case, where no
response is sent and `next()` runs). -/
def tmwStatus : TmwOutcome → Option Nat
  | .missingTenantId => some 400
  | .invalidFormat => some 400
  | .tooLong => some 400
  | .notFound _ => some 404
  | .inactive _ => some 403
  | .schemaError _ => some 500
  | .bound _ => none

/-- Result of a tenant-middleware run: the outcome, the cache state afterwards,
and whether `TenantCacheService.getModels` was invoked. -/
structure TmwOut where
  outcome : TmwOutcome
  cache : CacheState
  calledGetModels : Bool
deriving DecidableEq

/-- middlewares/tenantMiddleware.js. `header` is `req.headers[x-tenant-id]`;
`init` is the model-construction oracle used by the cache on a miss; `probe`
is the outcome of the storage liveness probe (`sequelize.authenticate()`
followed by `testModel.count()`), whose failure message is the thrown error. -/
def tenantMiddleware (db : DbState) (cache : CacheState) (header : Option String)
    (init : Except String ModelSet) (probe : Except String Unit) (now : Nat) : TmwOut :=
  match header with
  | none => { outcome := .missingTenantId, cache := cache, calledGetModels := false }
  | some tenantName =>
    if tenantName = "" then
      { outcome := .missingTenantId, cache := cache, calledGetModels := false }
    else if !(tenantName.data.all isTenantIdChar) then
      { outcome := .invalidFormat, cache := cache, calledGetModels := false }
    else if tenantName.length > 50 then
      { outcome := .tooLong, cache := cache, calledGetModels := false }
    else
      match findByIdentifier db tenantName with
      | none => { outcome := .notFound tenantName, cache := cache, calledGetModels := false }
      | some tenant =>
        if !tenant.isActive then
          { outcome := .inactive tenantName, cache := cache, calledGetModels := false }
        else
          match getModels cache tenant.schema (some tenant.id) init now with
          | (.error msg, cache1) =>
            { outcome := .schemaError msg, cache := cache1, calledGetModels := true }
          | (.ok models, cache1) =>
            if models.isEmpty then
              { outcome := .schemaError "No models were initialized", cache := cache1, calledGetModels := true }
            else
              match probe with
              | .error pmsg =>
                { outcome := .schemaError pmsg, cache := cache1, calledGetModels := true }
              | .ok _ =>
                { outcome := .bound
                    { id := tenant.id, name := tenant.name, schema := tenant.schema
                      models := models, isActive := tenant.isActive }
                  cache := cache1
                  calledGetModels := true }

/-! ### Concrete sample values used by witnesses and counterexamples -/

/-- A request resolved to tenant B (registry id 2). -/
def tenantB : TenantCtx :=
  { id := 2, name := "tenantB", schema := "tenantb", models := ["User"], isActive := true }

/-- A complete, well-formed decoded payload minted for tenant A (id 1). -/
def completeClaimsA : Decoded :=
  { userId := some 9, email := some "a@example.com", role := some "user"
    tenantId := some 1, tenantName := some "tenantA", iat := 100 }

/-- A decoded payload minted for tenant A whose `userId` claim is absent. -/
def incompleteClaimsA : Decoded :=
  { userId := none, email := some "a@example.com", role := some "user"
    tenantId := some 1, tenantName := some "tenantA", iat := 100 }

/-- A verifier oracle for which the signature and expiry checks succeed and
decode to the given payload. -/
def verifyOk (d : Decoded) : String → Except String Decoded :=
  fun _ => Except.ok d

/-- An active registry row for tenant `acme`. -/
def rowAcmeActive : TenantRow :=
  { id := 1, name := "acme", schema := "acme", contactEmail := none
    createdBy := none, isActive := true }

/-- The same tenant after deactivation. -/
def rowAcmeInactive : TenantRow :=
  { id := 1, name := "acme", schema := "acme", contactEmail := none
    createdBy := none, isActive := false }

/-- Registry and storage state with the active tenant `acme`. -/
def dbAcme : DbState := { tenants := [rowAcmeActive], schemas := ["acme"] }

/-- Registry and storage state with tenant `acme` deactivated. -/
def dbAcmeInactive : DbState := { tenants := [rowAcmeInactive], schemas := ["acme"] }

/-- A sample constructed model set. -/
def userModels : ModelSet := ["User", "Employee"]

/-- A creation run in which every external step succeeds. -/
def okOracle : CreateOracle :=
  { insertFails := false, createSchemaFails := false, initModels := .ok userModels
    syncFails := false, dropSchemaFails := false }

/-- A creation run in which the table sync (step 4) fails. -/
def syncFailOracle : CreateOracle :=
  { okOracle with syncFails := true }

/-- The empty durable state. -/
def emptyDb : DbState := { tenants := [], schemas := [] }

/-- The registry row produced by a successful creation of tenant `Acme-Co`. -/
def rowAcmeCo : TenantRow :=
  { id := 1, name := "Acme-Co", schema := "acmeco", contactEmail := none
    createdBy := none, isActive := true }

/-! ### Helper lemmas -/

theorem hasPermission_eq_true_iff (a b : String) :
    hasPermission a b = true ↔ roleLevel b ≤ roleLevel a := by
  simp [hasPermission, ge_iff_le]

theorem any_filter_not {α : Type} (q : α → Bool) (l : List α) :
    (l.filter (fun x => !(q x))).any q = false := by
  induction l with
  | nil => rfl
  | cons x xs ih =>
    by_cases h : q x
    · simp [List.filter_cons, h, ih]
    · simp [List.filter_cons, h, ih]

theorem hasModels_clearSchema (c : CacheState) (s : String) :
    hasModels (clearSchema c s).2 s = false := by
  unfold clearSchema
  by_cases h : hasModels c s
  · simp only [h, if_true]
    exact any_filter_not _ _
  · simp only [h]
    simp only [Bool.false_eq_true, if_false]
    exact Bool.eq_false_iff.mpr h

/-! ### C4 — role hierarchy and requireMinimumRole -/

/-- C4: the role hierarchy is the total order user (1) < manager (2) < admin (3),
and `requireMinimumRole(minRole)` passes an authenticated actor iff
`level(actor.role) >= level(minRole)`; in particular `requireMinimumRole("manager")`
rejects role `user` and accepts roles `manager` and `admin`. -/
theorem minimumRole_iff_level :
    (roleLevel "user" = 1 ∧ roleLevel "manager" = 2 ∧ roleLevel "admin" = 3
      ∧ roleLevel "user" < roleLevel "manager" ∧ roleLevel "manager" < roleLevel "admin")
    ∧ (∀ (u : RbacUser) (minRole : String),
        requireMinimumRole minRole (some u) = .next ↔ roleLevel minRole ≤ roleLevel u.role)
    ∧ requireMinimumRole "manager" (some { userId := 1, role := "user" })
        = .reject 403 "INSUFFICIENT_PERMISSIONS"
    ∧ requireMinimumRole "manager" (some { userId := 1, role := "manager" }) = .next
    ∧ requireMinimumRole "manager" (some { userId := 1, role := "admin" }) = .next := by
  refine ⟨by decide, ?_, by decide, by decide, by decide⟩
  intro u minRole
  unfold requireMinimumRole
  by_cases h : hasPermission u.role minRole
  · simp only [h, if_true]
    simpa [hasPermission_eq_true_iff] using (hasPermission_eq_true_iff u.role minRole).mp h
  · have hb : hasPermission u.role minRole = false := Bool.eq_false_iff.mpr h
    simp only [hb, Bool.false_eq_true, if_false]
    constructor
    · intro hc; cases hc
    · intro hle
      exact absurd ((hasPermission_eq_true_iff u.role minRole).mpr hle) h

/-- Witness for C4: the universally quantified biconditional evaluated at a
concrete actor and minimum role. -/
theorem minimumRole_iff_level_witness :
    requireMinimumRole "manager" (some { userId := 5, role := "admin" }) = .next :=
  (minimumRole_iff_level.2.1 { userId := 5, role := "admin" } "manager").mpr (by decide)

/-! ### C9 — unrecognized role strings default to level 0 -/

/-- C9: a role string outside user / manager / admin gets level 0; therefore
`requireMinimumRole` with an unrecognized minimum role grants every
authenticated actor, while an actor carrying an unrecognized role is denied
for any recognized minimum role. -/
theorem unknown_role_level_zero :
    (∀ r : String, r ≠ "user" → r ≠ "manager" → r ≠ "admin" → roleLevel r = 0)
    ∧ (∀ (m : String) (u : RbacUser), m ≠ "user" → m ≠ "manager" → m ≠ "admin" →
        requireMinimumRole m (some u) = .next)
    ∧ (∀ (m : String) (u : RbacUser), (m = "user" ∨ m = "manager" ∨ m = "admin") →
        u.role ≠ "user" → u.role ≠ "manager" → u.role ≠ "admin" →
        requireMinimumRole m (some u) = .reject 403 "INSUFFICIENT_PERMISSIONS") := by
  have hlvl : ∀ r : String, r ≠ "user" → r ≠ "manager" → r ≠ "admin" → roleLevel r = 0 := by
    intro r h1 h2 h3
    simp [roleLevel, ROLE_HIERARCHY, h1, h2, h3]
  refine ⟨hlvl, ?_, ?_⟩
  · intro m u h1 h2 h3
    have hperm : hasPermission u.role m = true := by
      rw [hasPermission_eq_true_iff, hlvl m h1 h2 h3]
      exact Nat.zero_le _
    simp [requireMinimumRole, hperm]
  · intro m u hm h1 h2 h3
    have hu : roleLevel u.role = 0 := hlvl u.role h1 h2 h3
    have hperm : hasPermission u.role m = false := by
      apply Bool.eq_false_iff.mpr
      intro hc
      have := (hasPermission_eq_true_iff u.role m).mp hc
      rw [hu] at this
      rcases hm with h | h | h <;> rw [h] at this <;> simp [roleLevel, ROLE_HIERARCHY] at this
    simp [requireMinimumRole, hperm]

/-- Witness for C9: the three parts evaluated at concrete roles. -/
theorem unknown_role_level_zero_witness :
    roleLevel "ghost" = 0
    ∧ requireMinimumRole "ghost" (some { userId := 1, role := "user" }) = .next
    ∧ requireMinimumRole "manager" (some { userId := 1, role := "ghost" })
        = .reject 403 "INSUFFICIENT_PERMISSIONS" :=
  ⟨unknown_role_level_zero.1 "ghost" (by decide) (by decide) (by decide),
   unknown_role_level_zero.2.1 "ghost" { userId := 1, role := "user" }
     (by decide) (by decide) (by decide),
   unknown_role_level_zero.2.2 "manager" { userId := 1, role := "ghost" }
     (Or.inr (Or.inl rfl)) (by decide) (by decide) (by decide)⟩

/-! ### C3 — ownership-or-role policy -/

/-- C3: for an authenticated actor, `requireOwnershipOrRole(minRole, ownerField)`
grants access when `level(actor.role) >= level(minRole)` regardless of
ownership; otherwise access is granted exactly when the owner id resolved from
the request (path parameter first, then body field, then query parameter,
first truthy value, parsed with `parseInt`) is the actor id (and nonzero); and
when no value is present in any of the three locations, access is denied with
the distinct code `OWNERSHIP_UNKNOWN`. -/
theorem ownershipOrRole_policy (minRole : String) (u : RbacUser) (pv bv qv : Option String) :
    (roleLevel minRole ≤ roleLevel u.role →
      requireOwnershipOrRole minRole (some u) pv bv qv = .next)
    ∧ (roleLevel u.role < roleLevel minRole →
        (requireOwnershipOrRole minRole (some u) pv bv qv = .next ↔
          (resolvedOwnerId pv bv qv = some u.userId ∧ u.userId ≠ 0)))
    ∧ (roleLevel u.role < roleLevel minRole →
        strTruthy pv = false → strTruthy bv = false → strTruthy qv = false →
        requireOwnershipOrRole minRole (some u) pv bv qv = .reject 403 "OWNERSHIP_UNKNOWN") := by
  refine ⟨?_, ?_, ?_⟩
  · intro h
    have hperm : hasPermission u.role minRole = true := (hasPermission_eq_true_iff u.role minRole).mpr h
    simp [requireOwnershipOrRole, hperm]
  · intro h
    have hperm : hasPermission u.role minRole = false := by
      apply Bool.eq_false_iff.mpr
      intro hc
      exact absurd ((hasPermission_eq_true_iff u.role minRole).mp hc) (Nat.not_le.mpr h)
    simp only [requireOwnershipOrRole, hperm, Bool.false_eq_true, if_false]
    rcases howner : resolvedOwnerId pv bv qv with _ | n
    · simp [intTruthy]
    · by_cases hz : n = 0
      · subst hz
        have hf : intTruthy (some (0 : Int)) = false := rfl
        simp only [hf, Bool.false_eq_true, not_false_eq_true, if_true]
        constructor
        · intro hc; cases hc
        · rintro ⟨he, hne⟩
          exact absurd (Option.some.inj he).symm hne
      · have ht : intTruthy (some n) = true := by simp [intTruthy, hz]
        simp only [ht, Bool.true_eq_false, not_true_eq_false, if_false, Bool.not_true]
        by_cases he : n = u.userId
        · subst he
          simp [hz]
        · have hns : ¬ (some n = some u.userId) := by simp [he]
          simp only [hns, if_false]
          constructor
          · intro hc; cases hc
          · rintro ⟨hc, -⟩
            exact hc.elim
  · intro h h1 h2 h3
    have hperm : hasPermission u.role minRole = false := by
      apply Bool.eq_false_iff.mpr
      intro hc
      exact absurd ((hasPermission_eq_true_iff u.role minRole).mp hc) (Nat.not_le.mpr h)
    simp [requireOwnershipOrRole, hperm, resolvedOwnerId, ownerRaw, h1, h2, h3, intTruthy]

/-- Witness for C3: a manager passes without ownership; a user owning the
resource named by the path parameter passes; a user with no resolvable owner
location is denied with `OWNERSHIP_UNKNOWN`. -/
theorem ownershipOrRole_policy_witness :
    requireOwnershipOrRole "manager" (some { userId := 7, role := "manager" }) none none none = .next
    ∧ requireOwnershipOrRole "manager" (some { userId := 7, role := "user" }) (some "7") none none = .next
    ∧ requireOwnershipOrRole "manager" (some { userId := 7, role := "user" }) none none none
        = .reject 403 "OWNERSHIP_UNKNOWN" :=
  ⟨(ownershipOrRole_policy "manager" { userId := 7, role := "manager" } none none none).1 (by decide),
   ((ownershipOrRole_policy "manager" { userId := 7, role := "user" } (some "7") none none).2.1
      (by decide)).mpr (by decide),
   (ownershipOrRole_policy "manager" { userId := 7, role := "user" } none none none).2.2
     (by decide) (by decide) (by decide) (by decide)⟩

/-! ### C1 — cross-tenant token rejection -/

/-- C1 counterexample: a token whose signature verifies and whose claims are
unexpired, carrying `tenantId = 1` against a request bound to tenant 2, is
rejected with 401 `TOKEN_INVALID_PAYLOAD` — not 403 `TOKEN_TENANT_MISMATCH` —
because its `userId` claim is absent and the payload-completeness check runs
before the tenant-claim comparison. -/
theorem jwt_incomplete_payload_counterexample :
    jwtMiddleware (some tenantB) (some "Bearer tokA") (verifyOk incompleteClaimsA)
      = .reject 401 "TOKEN_INVALID_PAYLOAD"
    ∧ jwtMiddleware (some tenantB) (some "Bearer tokA") (verifyOk incompleteClaimsA)
      ≠ .reject 403 "TOKEN_TENANT_MISMATCH" := by
  constructor <;> decide

/-- C1 (amended): for every request with a bound tenant context and every token
whose signature verifies, whose claims are unexpired, and whose payload is
complete (truthy userId, email, role and tenantId), if the tenantId claim
differs from the bound tenant id then authentication is rejected with 403
`TOKEN_TENANT_MISMATCH` and the handler is never invoked. -/
theorem jwt_tenant_mismatch_403
    (t : TenantCtx) (header : Option String) (verify : String → Except String Decoded)
    (tok : String) (d : Decoded)
    (hex : extractTokenFromHeader header = some tok)
    (hv : verify tok = .ok d)
    (hcomplete : (intTruthy d.userId && strTruthy d.email && strTruthy d.role
                    && intTruthy d.tenantId) = true)
    (hmis : d.tenantId ≠ some t.id) :
    jwtMiddleware (some t) header verify = .reject 403 "TOKEN_TENANT_MISMATCH"
    ∧ ∀ u, jwtMiddleware (some t) header verify ≠ .authenticated u := by
  have h1 : jwtMiddleware (some t) header verify = .reject 403 "TOKEN_TENANT_MISMATCH" := by
    unfold jwtMiddleware
    rw [hex]
    simp only [hv]
    simp [hcomplete, hmis]
  exact ⟨h1, fun u hu => by rw [h1] at hu; cases hu⟩

/-- Witness for C1: the amended theorem applied to a complete token minted for
tenant 1 presented against a request bound to tenant 2. -/
theorem jwt_tenant_mismatch_403_witness :
    jwtMiddleware (some tenantB) (some "Bearer tokA") (verifyOk completeClaimsA)
      = .reject 403 "TOKEN_TENANT_MISMATCH" :=
  (jwt_tenant_mismatch_403 tenantB (some "Bearer tokA") (verifyOk completeClaimsA)
    "tokA" completeClaimsA (by decide) rfl (by decide) (by decide)).1

/-! ### C10 — no bound tenant context: tenant-claim comparison is skipped -/

/-- C10: the JWT middleware compares the tenant claim only when a tenant
context is bound; with no bound tenant context, a token with a valid
signature, unexpired claims and a complete payload is accepted as
authenticated, regardless of which tenant its tenantId claim names. -/
theorem jwt_no_tenant_context_accepts
    (header : Option String) (verify : String → Except String Decoded)
    (tok : String) (d : Decoded)
    (hex : extractTokenFromHeader header = some tok)
    (hv : verify tok = .ok d)
    (hcomplete : (intTruthy d.userId && strTruthy d.email && strTruthy d.role
                    && intTruthy d.tenantId) = true) :
    jwtMiddleware none header verify = attachUser d := by
  unfold jwtMiddleware
  rw [hex]
  simp only [hv]
  simp [hcomplete]

/-- Witness for C10: a complete token minted for tenant 1 is accepted on a
request with no bound tenant context. -/
theorem jwt_no_tenant_context_accepts_witness :
    jwtMiddleware none (some "Bearer tokA") (verifyOk completeClaimsA)
      = attachUser completeClaimsA :=
  jwt_no_tenant_context_accepts (some "Bearer tokA") (verifyOk completeClaimsA)
    "tokA" completeClaimsA (by decide) rfl (by decide)

/-! ### C8 — the cache retains no entry for a failed construction -/

/-- C8: if model-set construction fails inside `getModels` for an uncached key,
the error propagates to the caller and the cache state is unchanged (no entry
is retained for the key); a next call for the same key attempts construction
again, and succeeds when the construction does. -/
theorem cache_no_failed_entry_retry
    (c : CacheState) (schema : String) (tid : Option Int) (msg : String)
    (now now2 : Nat) (m : ModelSet)
    (hmiss : getCacheEntry c schema = none)
    (hm : m ≠ []) :
    getModels c schema tid (.error msg) now = (.error msg, c)
    ∧ (getModels c schema tid (.ok m) now2).1 = .ok m := by
  have hempty : m.isEmpty = false := by
    cases m with
    | nil => exact absurd rfl hm
    | cons a l => rfl
  constructor
  · unfold getModels
    rw [hmiss]
  · unfold getModels
    rw [hmiss]
    simp [hempty]

/-- Witness for C8: construction failure on the empty cache propagates and
leaves the cache empty; the retry with a succeeding construction returns the
constructed model set. -/
theorem cache_no_failed_entry_retry_witness :
    getModels CacheState.empty "acme" (some 1) (.error "boom") 0
      = (.error "boom", CacheState.empty)
    ∧ (getModels CacheState.empty "acme" (some 1) (.ok userModels) 1).1 = .ok userModels :=
  cache_no_failed_entry_retry CacheState.empty "acme" (some 1) "boom" 0 1 userModels
    rfl (by decide)

/-! ### C5 — inactive tenant rejected before the cache is touched -/

/-- C5: a resolution request whose tenant exists in the registry with
`isActive == false` is rejected with HTTP 403 (the inactive rejection) before
the cache getOrLoad is called, so the cache state is unchanged by the
rejected request. -/
theorem tenant_inactive_403_before_cache
    (db : DbState) (cache : CacheState) (n : String) (row : TenantRow)
    (init : Except String ModelSet) (probe : Except String Unit) (now : Nat)
    (hne : n ≠ "")
    (hfmt : n.data.all isTenantIdChar = true)
    (hlen : n.length ≤ 50)
    (hfind : findByIdentifier db n = some row)
    (hinactive : row.isActive = false) :
    tenantMiddleware db cache (some n) init probe now
      = { outcome := .inactive n, cache := cache, calledGetModels := false }
    ∧ tmwStatus (.inactive n) = some 403 := by
  have hnl : ¬ (n.length > 50) := by omega
  constructor
  · unfold tenantMiddleware
    simp [hne, hfmt, hnl, hfind, hinactive]
  · rfl

/-- Witness for C5: resolving the deactivated tenant `acme` on an empty cache
is rejected with the 403 inactive outcome, leaving the cache untouched. -/
theorem tenant_inactive_403_before_cache_witness :
    tenantMiddleware dbAcmeInactive CacheState.empty (some "acme") (.ok userModels) (.ok ()) 0
      = { outcome := .inactive "acme", cache := CacheState.empty, calledGetModels := false }
    ∧ tmwStatus (.inactive "acme") = some 403 :=
  tenant_inactive_403_before_cache dbAcmeInactive CacheState.empty "acme" rowAcmeInactive
    (.ok userModels) (.ok ()) 0 (by decide) (by decide) (by decide) (by decide) (by decide)

/-! ### C6 — storage liveness probe failure -/

/-- C6 counterexample: with tenant `acme` found and active, model loading
succeeding and the storage liveness probe failing, the middleware responds
with HTTP 500 (a generic schema-error response), not with the 503 status the
claim asserts. -/
theorem probe_failure_500_counterexample :
    tmwStatus (tenantMiddleware dbAcme CacheState.empty (some "acme") (.ok userModels)
      (.error "relation does not exist") 0).outcome = some 500
    ∧ tmwStatus (tenantMiddleware dbAcme CacheState.empty (some "acme") (.ok userModels)
      (.error "relation does not exist") 0).outcome ≠ some 503 := by
  constructor <;> decide

/-- C6 (amended): when the tenant is found and active, the model set loads,
and the storage liveness probe fails, the middleware responds with the
schema-error outcome carrying HTTP 500 — a branch distinct from NotFound —
and never with a NotFound outcome. -/
theorem probe_failure_500_not_notFound
    (db : DbState) (cache : CacheState) (n : String) (row : TenantRow)
    (init : Except String ModelSet) (m : ModelSet) (pmsg : String) (now : Nat)
    (hne : n ≠ "")
    (hfmt : n.data.all isTenantIdChar = true)
    (hlen : n.length ≤ 50)
    (hfind : findByIdentifier db n = some row)
    (hact : row.isActive = true)
    (hget : (getModels cache row.schema (some row.id) init now).1 = .ok m)
    (hm : m ≠ []) :
    (tenantMiddleware db cache (some n) init (.error pmsg) now).outcome = .schemaError pmsg
    ∧ tmwStatus (tenantMiddleware db cache (some n) init (.error pmsg) now).outcome = some 500
    ∧ ∀ s, (tenantMiddleware db cache (some n) init (.error pmsg) now).outcome ≠ .notFound s := by
  have hnl : ¬ (n.length > 50) := by omega
  have hempty : m.isEmpty = false := by
    cases m with
    | nil => exact absurd rfl hm
    | cons a l => rfl
  have h1 : (tenantMiddleware db cache (some n) init (.error pmsg) now).outcome
      = .schemaError pmsg := by
    unfold tenantMiddleware
    rcases hp : getModels cache row.schema (some row.id) init now with ⟨res, c1⟩
    rw [hp] at hget
    simp only at hget
    subst hget
    simp [hne, hfmt, hnl, hfind, hact, hp, hempty]
  exact ⟨h1, by rw [h1]; rfl, fun s hc => by rw [h1] at hc; cases hc⟩

/-- Witness for C6 (amended): the concrete probe-failure run from the
counterexample satisfies the amended statement. -/
theorem probe_failure_500_not_notFound_witness :
    (tenantMiddleware dbAcme CacheState.empty (some "acme") (.ok userModels)
      (.error "relation does not exist") 0).outcome = .schemaError "relation does not exist"
    ∧ tmwStatus (tenantMiddleware dbAcme CacheState.empty (some "acme") (.ok userModels)
      (.error "relation does not exist") 0).outcome = some 500
    ∧ ∀ s, (tenantMiddleware dbAcme CacheState.empty (some "acme") (.ok userModels)
      (.error "relation does not exist") 0).outcome ≠ .notFound s :=
  probe_failure_500_not_notFound dbAcme CacheState.empty "acme" rowAcmeActive
    (.ok userModels) userModels "relation does not exist" 0
    (by decide) (by decide) (by decide) (by decide) (by decide) rfl (by decide)

/-! ### C7 — deterministic namespace derivation and its validation -/

/-- C7: the namespace identifier is derived deterministically from the tenant
name by lowercasing and stripping characters outside `[a-z0-9_]` (every
successful creation stores exactly that derivation); creation fails with the
registry and storage state unchanged when the derived namespace is empty,
longer than 50 characters, or a reserved word; and `acme-co` derives to
`acmeco`. -/
theorem namespace_derivation :
    (∀ (db : DbState) (cache : CacheState) (name : String) (ce cb : Option String)
        (id : Int) (now : Nat) (o : CreateOracle) (row : TenantRow),
        (createTenant db cache name ce cb id now o).result = .ok row →
        row.schema = deriveSchema name ∧ row.name = name)
    ∧ (∀ (db : DbState) (cache : CacheState) (name : String) (ce cb : Option String)
        (id : Int) (now : Nat) (o : CreateOracle),
        (deriveSchema name = "" ∨ 50 < (deriveSchema name).length
          ∨ reservedWords.contains (deriveSchema name) = true) →
        (∃ msg, (createTenant db cache name ce cb id now o).result = .error msg)
        ∧ (createTenant db cache name ce cb id now o).db = db
        ∧ (createTenant db cache name ce cb id now o).cache = cache)
    ∧ deriveSchema "acme-co" = "acmeco" := by
  refine ⟨?_, ?_, by decide⟩
  · intro db cache name ce cb id now o row h
    unfold createTenant at h
    dsimp only at h
    repeat' split at h
    all_goals first
      | (injection h with h2
         subst h2
         exact ⟨rfl, rfl⟩)
      | (injection h)
  · intro db cache name ce cb id now o hd
    unfold createTenant
    by_cases hname : name = ""
    · simp [hname]
    · rcases hd with h | h | h
      · simp [hname, h]
      · have hs : ¬ (deriveSchema name = "") := by
          intro hc
          rw [hc] at h
          simp at h
        simp [hname, hs, h]
      · have hs : ¬ (deriveSchema name = "") := by
          intro hc
          rw [hc] at h
          exact absurd h (by decide)
        have hmem : deriveSchema name ∈ reservedWords := List.mem_of_elem_eq_true h
        have hl : ¬ (50 < (deriveSchema name).length) := by
          intro hc
          have hmem2 : deriveSchema name = "public" ∨ deriveSchema name = "information_schema"
              ∨ deriveSchema name = "pg_catalog" ∨ deriveSchema name = "pg_toast" := by
            simpa [reservedWords] using hmem
          rcases hmem2 with he | he | he | he <;> rw [he] at hc <;> exact absurd hc (by decide)
        simp [hname, hs, hl, hmem]

/-- Witness for C7: the successful creation of `Acme-Co` stores the derived
namespace `acmeco`, and creating a tenant whose name derives to the reserved
word `public` fails without touching the registry, storage, or cache. -/
theorem namespace_derivation_witness :
    (rowAcmeCo.schema = deriveSchema "Acme-Co" ∧ rowAcmeCo.name = "Acme-Co")
    ∧ ((∃ msg, (createTenant emptyDb CacheState.empty "public" none none 1 0 okOracle).result
          = .error msg)
        ∧ (createTenant emptyDb CacheState.empty "public" none none 1 0 okOracle).db = emptyDb
        ∧ (createTenant emptyDb CacheState.empty "public" none none 1 0 okOracle).cache
            = CacheState.empty) :=
  ⟨namespace_derivation.1 emptyDb CacheState.empty "Acme-Co" none none 1 0 okOracle rowAcmeCo
      rfl,
   namespace_derivation.2.1 emptyDb CacheState.empty "public" none none 1 0 okOracle
      (Or.inr (Or.inr (by decide)))⟩

/-! ### C2 — creation compensation sequence -/

/-- C2 counterexample: when the table-sync step fails after the registry row
was inserted, the schema created and the cache populated, the compensation
runs transaction rollback first, then the schema drop, then the cache
eviction — the same (forward) order as the original steps, not the reverse
order (cache eviction, schema drop, row removal) the claim asserts. -/
theorem createTenant_undo_order_counterexample :
    (createTenant emptyDb CacheState.empty "acme" none none 1 0 syncFailOracle).trace
      = [Op.insertRow, Op.createSchema, Op.cacheLoad,
         Op.rollbackTx, Op.dropSchemaOp, Op.clearCacheOp]
    ∧ (createTenant emptyDb CacheState.empty "acme" none none 1 0 syncFailOracle).trace
      ≠ [Op.insertRow, Op.createSchema, Op.cacheLoad,
         Op.clearCacheOp, Op.dropSchemaOp, Op.rollbackTx] := by
  constructor <;> decide

/-- C2 (amended): for every tenant-creation call in which a step fails (and
whose compensating schema drop does not itself fail), all prior steps are
undone — by transaction rollback, then schema drop, then cache eviction, in
the forward order of the original steps — before the error surfaces: for a
fresh name and namespace, a subsequent `findByIdentifier` returns NotFound,
the storage namespace does not exist, and no cache entry for the derived
namespace remains. -/
theorem createTenant_compensation
    (db : DbState) (cache : CacheState) (name : String) (ce cb : Option String)
    (id : Int) (now : Nat) (o : CreateOracle) (msg : String)
    (hdrop : o.dropSchemaFails = false)
    (hnfresh : findByIdentifier db name = none)
    (hsfresh : deriveSchema name ∉ db.schemas)
    (hcfresh : hasModels cache (deriveSchema name) = false)
    (herr : (createTenant db cache name ce cb id now o).result = .error msg) :
    findByIdentifier (createTenant db cache name ce cb id now o).db name = none
    ∧ deriveSchema name ∉ (createTenant db cache name ce cb id now o).db.schemas
    ∧ hasModels (createTenant db cache name ce cb id now o).cache (deriveSchema name) = false
    ∧ ((createTenant db cache name ce cb id now o).trace.filter isUndoOp = []
        ∨ (createTenant db cache name ce cb id now o).trace.filter isUndoOp
            = [Op.rollbackTx, Op.clearCacheOp]
        ∨ (createTenant db cache name ce cb id now o).trace.filter isUndoOp
            = [Op.rollbackTx, Op.dropSchemaOp, Op.clearCacheOp]) := by
  unfold createTenant at herr ⊢
  revert herr
  dsimp only
  repeat' split
  all_goals intro herr
  all_goals first
    | exact ⟨hnfresh, hsfresh, hcfresh, Or.inl rfl⟩
    | (refine ⟨?_, ?_, ?_, ?_⟩
       · simpa [compensate, hdrop, findByIdentifier, apply_ite DbState.tenants] using hnfresh
       · first
         | simpa [compensate, hdrop] using hsfresh
         | simp [compensate, hdrop, apply_ite DbState.schemas, List.mem_filter]
       · simp [compensate, hdrop, hasModels_clearSchema]
       · simp [compensate, hdrop, isUndoOp])
    | (injection herr)

/-- Witness for C2 (amended): the sync-failure run from the counterexample
leaves no registry row, no storage namespace, and no cache entry behind. -/
theorem createTenant_compensation_witness :
    findByIdentifier (createTenant emptyDb CacheState.empty "acme" none none 1 0 syncFailOracle).db
        "acme" = none
    ∧ deriveSchema "acme"
        ∉ (createTenant emptyDb CacheState.empty "acme" none none 1 0 syncFailOracle).db.schemas
    ∧ hasModels (createTenant emptyDb CacheState.empty "acme" none none 1 0 syncFailOracle).cache
        (deriveSchema "acme") = false
    ∧ ((createTenant emptyDb CacheState.empty "acme" none none 1 0 syncFailOracle).trace.filter
          isUndoOp = []
        ∨ (createTenant emptyDb CacheState.empty "acme" none none 1 0 syncFailOracle).trace.filter
            isUndoOp = [Op.rollbackTx, Op.clearCacheOp]
        ∨ (createTenant emptyDb CacheState.empty "acme" none none 1 0 syncFailOracle).trace.filter
            isUndoOp = [Op.rollbackTx, Op.dropSchemaOp, Op.clearCacheOp]) :=
  createTenant_compensation emptyDb CacheState.empty "acme" none none 1 0 syncFailOracle
    "Tenant creation failed: sync failed" rfl rfl (by decide) rfl rfl

end Backend
